import Mathlib

/-!
Shallow embedding of the GawPanCra21 repository: two Jupyter notebooks
(EcoliPPP and ModularEcoli) that orchestrate an external stoichiometric
analysis toolkit (modules st, stbg, mbg, Extract, bgt).  The notebooks
define a handful of small Python functions (ch, printChem, Chemostats,
pathway, Pathway) and a sequence of top-level cells that call the external
library with concrete chemostat, flowstat and common-species lists.

The external library functions (st.stoich, st.statify, st.path,
st.sprintrl, st.sprintp, mbg.unify, ...) are not part of the repository
source; they are modelled here as function parameters (oracles), so every
theorem about the glue code holds for an arbitrary interpretation of the
library.  The concrete argument lists appearing at each call site are
transcribed literally from the notebook cells.
-/

namespace GawPanCra21

/-- A stoichiometric record, the dictionary produced by st.stoich and
Extract.choose: a reaction list, a species list, an integer stoichiometric
matrix N and a name.  The glue code treats it as an opaque value that is
passed between library calls. -/
structure StoichRec where
  name : String
  reaction : List String
  species : List String
  N : List (List Int)
  deriving Repr, DecidableEq, Inhabited

/-- Python sorted on a list of strings, as used by the print statements of
pathway and Pathway. -/
def pysorted (l : List String) : List String :=
  l.mergeSort (fun a b => decide (a ≤ b))

/-- Python slicing s[:-2], dropping the last two characters, used by
printChem; on a string of length at most two it returns the empty
string, exactly as in Python. -/
def pyDropLast2 (s : String) : String :=
  String.mk (s.data.take (s.data.length - 2))

/-- Function ch from the EcoliPPP notebook:
def ch(name): return the string backslash-ch-open-brace name close-brace. -/
def ch (name : String) : String :=
  "\\ch\x7b" ++ name ++ "\x7d"

/-- Function printChem from the ModularEcoli notebook:
starts from the empty accumulator, appends the f-string wrapping each name,
and returns the accumulator with the final two characters sliced off. -/
def printChem (chem : List String) : String :=
  pyDropLast2 (chem.foldl (fun Chem c => Chem ++ ("\\ch\x7b" ++ c ++ "\x7d, ")) "")

/-- The default value of the start parameter of Chemostats in the source. -/
def Chemostats_default_start : String := "G6P"

/-- Function Chemostats from the EcoliPPP notebook: the fixed base list,
then the start species, then (when the end argument is given and not None)
the entries of the end list. -/
def Chemostats (start : String) (end_ : Option (List String)) : List String :=
  let chemostats := ["ADP", "ATP", "CO2", "H", "H2O", "NADP", "NADPH"]
  let chemostats := chemostats ++ [start]
  match end_ with
  | some e => chemostats ++ e
  | none => chemostats

/-- Dynamic (untyped) Python values, used to state typing facts about the
glue code exactly as Python would see them. -/
inductive Py where
  | pstr (s : String)
  | pint (n : Int)
  | plist (l : List Py)
  | pnone

/-- A Py value is a list every element of which is a string. -/
def pyIsStrList (p : Py) : Bool :=
  match p with
  | Py.plist l => l.all (fun x => match x with | Py.pstr _ => true | _ => false)
  | _ => false

/-- Encode a Lean list of strings as the corresponding Python list. -/
def pyOfStrList (l : List String) : Py :=
  Py.plist (l.map Py.pstr)

/-- Encode an optional list of strings as a Python value, None when absent. -/
def pyOfOptStrList (l : Option (List String)) : Py :=
  match l with
  | none => Py.pnone
  | some x => pyOfStrList x

/-- Python iteration over a value, as performed by list extension with +=:
a list yields its elements, a string yields its one-character substrings,
anything else raises TypeError. -/
def pyIter (x : Py) : Except String (List Py) :=
  match x with
  | Py.plist ys => Except.ok ys
  | Py.pstr s => Except.ok (s.data.map (fun c => Py.pstr (String.mk [c])))
  | _ => Except.error "TypeError: object is not iterable"

/-- Function Chemostats under Python dynamic semantics: += [start] appends
the start value, and += end extends by the elements of end when end is not
None, raising TypeError when end is not iterable. -/
def ChemostatsPy (start end_ : Py) : Except String Py :=
  let chemostats : List Py :=
    [Py.pstr "ADP", Py.pstr "ATP", Py.pstr "CO2", Py.pstr "H",
     Py.pstr "H2O", Py.pstr "NADP", Py.pstr "NADPH"]
  let chemostats := chemostats ++ [start]
  match end_ with
  | Py.pnone => Except.ok (Py.plist chemostats)
  | e =>
    match pyIter e with
    | Except.ok ys => Except.ok (Py.plist (chemostats ++ ys))
    | Except.error m => Except.error m

/-- One line of notebook output produced by the repository functions. -/
inductive OutLine where
  | chemostatsLine (names : List String)
  | flowstatsLine (names : List String)
  | textLine (s : String)
  deriving Repr, DecidableEq

/-- The fourth component returned by pathway: the literal integer 0 when
computePhi is False, and the value Phip computed by energetics otherwise. -/
inductive PhiResult (Φ : Type) where
  | num (n : Int)
  | val (p : Φ)
  deriving Repr, DecidableEq

/-- Type of the external st.statify call: a record, the chemostats list and
the flowstats list (None when the keyword is not given). -/
abbrev StatifyFun := StoichRec → List String → Option (List String) → StoichRec

/-- Type of the external st.path call: two records and the removeSingle
keyword (None when not given). -/
abbrev PathFun := StoichRec → StoichRec → Option Bool → StoichRec

/-- Type of the external rendering calls st.sprintrl and st.sprintp. -/
abbrev SprintFun := StoichRec → String

/-- Function Pathway from the EcoliPPP notebook, with the external library
calls as oracle parameters.  It prints the sorted chemostats and flowstats,
takes a copy of S, statifies it, computes the path, optionally prints the
chemostats wrapped by ch, prints the rendering of sp, and returns the
triple (s, sc, sp) together with the printed lines. -/
def Pathway (statify : StatifyFun) (path : PathFun) (sprintrl : SprintFun)
    (S : StoichRec) (chemostats : List String) (flowstats : List String)
    (verbose : Bool) :
    List OutLine × (StoichRec × StoichRec × StoichRec) :=
  let headerOut := [OutLine.chemostatsLine (pysorted chemostats),
                    OutLine.flowstatsLine (pysorted flowstats)]
  let s := S
  let sc := statify s chemostats (some flowstats)
  let sp := path s sc none
  let verboseOut :=
    if verbose then (pysorted chemostats).map (fun stat => OutLine.textLine (ch stat ++ ",")) else []
  let renderOut := [OutLine.textLine (sprintrl sp)]
  (headerOut ++ verboseOut ++ renderOut, (s, sc, sp))

/-- Function pathway from the EcoliPPP notebook, with the external library
calls as oracle parameters.  The stoichiometric record is created from the
bond graph bg by st.stoich; with computePhi the energetics are computed and
sprintp of sc is printed, otherwise the rendering of sp is printed and the
fourth returned component is the literal 0. -/
def pathway {BG Φ : Type} (stoich : BG → StoichRec) (statify : StatifyFun)
    (path : PathFun) (sprintrl : SprintFun) (sprintp : SprintFun)
    (energetics : StoichRec → StoichRec → Φ → Φ × Φ)
    (bg : BG) (phi : Φ) (chemostats : List String) (flowstats : List String)
    (computePhi : Bool) (verbose : Bool) :
    List OutLine × (StoichRec × StoichRec × StoichRec × PhiResult Φ) :=
  let headerOut := [OutLine.chemostatsLine (pysorted chemostats),
                    OutLine.flowstatsLine (pysorted flowstats)]
  let s := stoich bg
  let sc := statify s chemostats (some flowstats)
  let sp := path s sc none
  let verboseOut :=
    if verbose then (pysorted chemostats).map (fun stat => OutLine.textLine (ch stat ++ ",")) else []
  if computePhi then
    let ePair := energetics s sp phi
    let Phip := ePair.2
    (headerOut ++ verboseOut ++ [OutLine.textLine (sprintp sc)], (s, sc, sp, PhiResult.val Phip))
  else
    let Phip : PhiResult Φ := PhiResult.num 0
    (headerOut ++ verboseOut ++ [OutLine.textLine (sprintrl sp)], (s, sc, sp, Phip))

/-- Written from the words of the specification, for comparison with the
source function Pathway: the returned triple is exactly (s, sc, sp) where
s is the (shallow, value-equal) copy of S, sc is st.statify of s with the
given chemostats and flowstats, and sp is st.path of (s, sc). -/
def Pathway_spec (statify : StatifyFun) (path : PathFun) (S : StoichRec)
    (chemostats : List String) (flowstats : List String) :
    StoichRec × StoichRec × StoichRec :=
  let s := S
  let sc := statify s chemostats (some flowstats)
  let sp := path s sc none
  (s, sc, sp)

/-- Reaction names of the GlyPPP record analysed by the EcoliPPP notebook,
as chosen by Extract.choose and confirmed by the reaction labels of the
rendered equations stored in the notebook. -/
def sGlyPPP_reaction : List String :=
  ["PGI", "PFK", "FBA", "TPI", "G6PDH2R", "PGL", "GND", "RPI", "TKT2", "TALA", "TKT1", "RPE"]

/-- Species names of the GlyPPP record analysed by the EcoliPPP notebook,
transcribed from the rendered reaction equations stored in the notebook
output (every species occurring in the twelve displayed reactions). -/
def sGlyPPP_species : List String :=
  ["G6P", "F6P", "ATP", "ADP", "FDP", "H", "DHAP", "G3P", "NADP", "6PGL",
   "NADPH", "H2O", "6PGC", "CO2", "RU5PD", "R5P", "E4P", "XU5PD", "S7P"]

/-- Flowstats passed to Pathway (and hence to st.statify) in the R5P and
NADPH generation analysis of the EcoliPPP notebook. -/
def pppFlowstats_r5p_nadph : List String := ["PGI", "TKT2"]

/-- Flowstats passed to Pathway in the R5P generation analysis. -/
def pppFlowstats_r5p : List String := ["G6PDH2R"]

/-- Flowstats passed to Pathway in the NADPH generation analysis. -/
def pppFlowstats_nadph : List String := []

/-- Chemostats chemostats0 of the glycolysis analysis (ModularEcoli cell 16). -/
def chemostats0_gly : List String := ["ADP", "ATP", "H2O", "PI", "H"]

/-- Chemostats of the glycolysis analysis: the list is built and then
extended by chemostats0 (ModularEcoli cell 16). -/
def chemostats_gly : List String := ["GLCD_E", "PYR", "NAD", "NADH"] ++ chemostats0_gly

/-- Chemostats chemostats0 of the TCA analysis (ModularEcoli cell 23). -/
def chemostats0_tca : List String :=
  ["ADP", "ATP", "H2O", "NAD", "NADH", "PI", "H", "Q8", "Q8H2"]

/-- Chemostats of the TCA analysis (ModularEcoli cell 23). -/
def chemostats_tca : List String := ["ACCOA", "COA", "CO2"] ++ chemostats0_tca

/-- Chemostats chemostats0 of the PyrTCA analysis (ModularEcoli cell 34). -/
def chemostats0_pyrtca : List String :=
  ["ADP", "ATP", "H2O", "NAD", "NADH", "PI", "NADP", "NADPH", "H", "Q8", "Q8H2", "FOR"]

/-- Chemostats of the PyrTCA analysis (ModularEcoli cell 34). -/
def chemostats_pyrtca : List String := ["PYR", "CO2"] ++ chemostats0_pyrtca

/-- Chemostats of the electron transport chain analysis (ModularEcoli cell 41). -/
def chemostats_etc : List String := ["NADH", "NAD", "O2", "H2O", "H", "H_E"]

/-- Chemostats of the ATPase analysis (ModularEcoli cell 48). -/
def chemostats_atp : List String := ["H", "H_E", "ATP", "ADP", "PI", "H2O"]

/-- Chemostats chemostats0 of the GlyTCA analysis (ModularEcoli cell 59). -/
def chemostats0_glytca : List String :=
  ["ADP", "ATP", "H2O", "NAD", "NADH", "PI", "H", "Q8", "Q8H2", "FOR"]

/-- Chemostats of the GlyTCA analysis (ModularEcoli cell 59). -/
def chemostats_glytca : List String := ["GLCD_E", "CO2"] ++ chemostats0_glytca

/-- Chemostats chemostats0 of the metabolism analysis (ModularEcoli cell 67). -/
def chemostats0_met : List String := ["ADP", "ATP", "H2O", "PI", "H"]

/-- Chemostats of the metabolism analysis (ModularEcoli cell 67). -/
def chemostats_met : List String := ["GLCD_E", "CO2", "O2"] ++ chemostats0_met

/-- Glycolysis pathway analysis cells of ModularEcoli (cell 16):
sc0 from statify with chemostats0, sc from statify with the extended
chemostats, sp from st.path applied to (s, sc). -/
def analysisGly (statify : StatifyFun) (path : PathFun) (s : StoichRec) :
    StoichRec × StoichRec × StoichRec :=
  let sc0 := statify s chemostats0_gly none
  let sc := statify s chemostats_gly none
  let sp := path s sc none
  (sc0, sc, sp)

/-- TCA pathway analysis cells of ModularEcoli (cells 23, 25 and 27):
both statified records and the two st.path results computed from them. -/
def analysisTCA (statify : StatifyFun) (path : PathFun) (s : StoichRec) :
    StoichRec × StoichRec × StoichRec × StoichRec :=
  let sc0 := statify s chemostats0_tca none
  let sc := statify s chemostats_tca none
  let sp0 := path s sc0 none
  let sp := path s sc none
  (sc0, sc, sp0, sp)

/-- PyrTCA pathway analysis cells of ModularEcoli (cells 34 and 35). -/
def analysisPyrTCA (statify : StatifyFun) (path : PathFun) (s : StoichRec) :
    StoichRec × StoichRec × StoichRec :=
  let sc0 := statify s chemostats0_pyrtca none
  let sc := statify s chemostats_pyrtca none
  let sp := path s sc none
  (sc0, sc, sp)

/-- Electron transport chain analysis cells of ModularEcoli (cells 41 and 42). -/
def analysisETC (statify : StatifyFun) (path : PathFun) (s : StoichRec) :
    StoichRec × StoichRec :=
  let sc := statify s chemostats_etc none
  let sp := path s sc none
  (sc, sp)

/-- ATPase analysis cells of ModularEcoli (cells 48 and 49); here st.path is
called with removeSingle set to False. -/
def analysisATP (statify : StatifyFun) (path : PathFun) (s : StoichRec) :
    StoichRec × StoichRec :=
  let sc := statify s chemostats_atp none
  let sp := path s sc (some false)
  (sc, sp)

/-- GlyTCA analysis cells of ModularEcoli (cells 59 and 60). -/
def analysisGlyTCA (statify : StatifyFun) (path : PathFun) (s : StoichRec) :
    StoichRec × StoichRec :=
  let sc := statify s chemostats_glytca none
  let sp := path s sc none
  (sc, sp)

/-- Metabolism analysis cells of ModularEcoli (cells 67 and 68). -/
def analysisMet (statify : StatifyFun) (path : PathFun) (s : StoichRec) :
    StoichRec × StoichRec :=
  let sc := statify s chemostats_met none
  let sp := path s sc none
  (sc, sp)

/-- Complete list of the st.statify call sites of the repository: the name
of the record analysed, the chemostats argument and the flowstats argument
(None when the keyword is not given at the call site).  The first ten are
the ModularEcoli cells; the last three are the calls made through Pathway
by the three EcoliPPP analyses, whose chemostat lists are built by
Chemostats. -/
def statifyCalls : List (String × List String × Option (List String)) :=
  [("GLY", chemostats0_gly, none),
   ("GLY", chemostats_gly, none),
   ("TCA", chemostats0_tca, none),
   ("TCA", chemostats_tca, none),
   ("PyrTCA", chemostats0_pyrtca, none),
   ("PyrTCA", chemostats_pyrtca, none),
   ("ETC", chemostats_etc, none),
   ("ATPase", chemostats_atp, none),
   ("GlyTCA", chemostats_glytca, none),
   ("Met", chemostats_met, none),
   ("GlyPPP", Chemostats "G6P" (some ["R5P"]), some pppFlowstats_r5p_nadph),
   ("GlyPPP", Chemostats "G6P" (some ["R5P"]), some pppFlowstats_r5p),
   ("GlyPPP", Chemostats "G6P" none, some pppFlowstats_nadph)]

/-- The common-species list of the Glycolysis/TCA composite
(ModularEcoli cell 55). -/
def GlyTCA_common : List String :=
  ["PYR", "ATP", "ADP", "PI", "H", "NAD", "NADH", "H2O"]

/-- The common-species list of the metabolism composite
(ModularEcoli cell 64). -/
def Met_common : List String :=
  ["ATP", "ADP", "PI", "H", "H_E", "NAD", "NADH", "H2O", "Q8", "Q8H2"]

/-- Complete list of the bgt add call sites of the repository: the fresh
composite system and the sub-models added to it (cells 53 and 63). -/
def addCalls : List (String × List String) :=
  [("GlyTCA", ["GLY", "PyrTCA"]),
   ("Met", ["GlyTCA", "ETC", "ATP"])]

/-- Complete list of the mbg.unify call sites of the repository: the
composite system and the common-species list (cells 55 and 64). -/
def unifyCalls : List (String × List String) :=
  [("GlyTCA", GlyTCA_common),
   ("Met", Met_common)]

/-- Type of a fallible external st.statify call. -/
abbrev StatifyExc (E : Type) := StoichRec → List String → Option (List String) → Except E StoichRec

/-- Type of a fallible external st.path call. -/
abbrev PathExc (E : Type) := StoichRec → StoichRec → Option Bool → Except E StoichRec

/-- Function Pathway when the external library calls may fail: the body
performs the same sequence of calls with no try or except around any of
them, so a failure of any call is returned unchanged. -/
def PathwayExc {E : Type} (statify : StatifyExc E) (path : PathExc E)
    (sprintrl : StoichRec → Except E String)
    (S : StoichRec) (chemostats : List String) (flowstats : List String) :
    Except E (List OutLine × (StoichRec × StoichRec × StoichRec)) := do
  let headerOut := [OutLine.chemostatsLine (pysorted chemostats),
                    OutLine.flowstatsLine (pysorted flowstats)]
  let s := S
  let sc ← statify s chemostats (some flowstats)
  let sp ← path s sc none
  let rendered ← sprintrl sp
  pure (headerOut ++ [OutLine.textLine rendered], (s, sc, sp))

/-- Function pathway (with computePhi False) when the external library
calls may fail, including the initial st.stoich call on the bond graph. -/
def pathwayExc {BG E : Type} (stoich : BG → Except E StoichRec)
    (statify : StatifyExc E) (path : PathExc E)
    (sprintrl : StoichRec → Except E String)
    (bg : BG) (chemostats : List String) (flowstats : List String) :
    Except E (StoichRec × StoichRec × StoichRec × PhiResult Unit) := do
  let s ← stoich bg
  let sc ← statify s chemostats (some flowstats)
  let sp ← path s sc none
  let _ ← sprintrl sp
  pure (s, sc, sp, PhiResult.num 0)

/-- Heap model of Python object identity: a heap is a list of records and
an object is an index into it. -/
abbrev RecHeap := List StoichRec

/-- copy.copy on the heap: allocate a fresh object holding the same record
value and return the new heap together with the fresh address. -/
def copy_copy (heap : RecHeap) (a : Nat) : RecHeap × Nat :=
  (heap ++ [heap.getD a default], heap.length)

/-- Function Pathway in the heap model: S lives at address a; the body
takes a shallow copy of S, passes the copy to st.statify and st.path, and
writes to no existing heap cell.  The returned address is that of the
copy, the first component of the returned Python triple. -/
def PathwayHeap (statify : StatifyFun) (path : PathFun)
    (heap : RecHeap) (a : Nat) (chemostats : List String) (flowstats : List String) :
    RecHeap × Nat × StoichRec × StoichRec :=
  let hc := copy_copy heap a
  let s := hc.1.getD hc.2 default
  let sc := statify s chemostats (some flowstats)
  let sp := path s sc none
  (hc.1, hc.2, sc, sp)

/-- Concatenation of a list of strings, head first; used to reason about
the string accumulation loop of printChem. -/
def strConcat : List String → String
  | [] => ""
  | s :: rest => s ++ strConcat rest

lemma foldl_append_strConcat (g : String → String) :
    ∀ (l : List String) (acc : String),
      l.foldl (fun s x => s ++ g x) acc = acc ++ strConcat (l.map g) := by
  intro l
  induction l with
  | nil =>
    intro acc
    simp [strConcat]
  | cons x xs ih =>
    intro acc
    simp only [List.map_cons, List.foldl_cons, strConcat]
    rw [ih, String.append_assoc]

lemma intercalate_go_eq (sep : String) :
    ∀ (l : List String) (acc : String),
      String.intercalate.go acc sep l = acc ++ strConcat (l.map (fun x => sep ++ x)) := by
  intro l
  induction l with
  | nil =>
    intro acc
    simp [String.intercalate.go, strConcat]
  | cons a as ih =>
    intro acc
    rw [String.intercalate.go, ih]
    simp [strConcat, String.append_assoc]

lemma strConcat_data : ∀ l : List String, (strConcat l).data = (l.map String.data).flatten := by
  intro l
  induction l with
  | nil => rfl
  | cons s t ih => simp [strConcat, String.data_append, ih]

lemma intercalate_go_data (sep : String) :
    ∀ (l : List String) (acc : String),
      (String.intercalate.go acc sep l).data
        = acc.data ++ (l.map (fun x => sep.data ++ x.data)).flatten := by
  intro l
  induction l with
  | nil =>
    intro acc
    simp [String.intercalate.go]
  | cons a as ih =>
    intro acc
    rw [String.intercalate.go, ih]
    simp [String.data_append]

lemma take_drop_comma :
    ∀ (ys : List (List Char)) (w : List Char),
      (((w ++ [',', ' ']) ++ (ys.map (fun y => y ++ [',', ' '])).flatten).take
        (((w ++ [',', ' ']) ++ (ys.map (fun y => y ++ [',', ' '])).flatten).length - 2))
      = w ++ (ys.map (fun y => [',', ' '] ++ y)).flatten := by
  intro ys
  induction ys with
  | nil =>
    intro w
    simp only [List.map_nil, List.flatten_nil, List.append_nil, List.length_append]
    have h : w.length + [',', ' '].length - 2 = w.length := by simp
    rw [h, List.take_left]
  | cons y t ih =>
    intro w
    have reassoc :
        (w ++ [',', ' ']) ++ ((y :: t).map (fun z => z ++ [',', ' '])).flatten
          = (((w ++ [',', ' ']) ++ y) ++ [',', ' ']) ++ (t.map (fun z => z ++ [',', ' '])).flatten := by
      simp
    rw [reassoc, ih ((w ++ [',', ' ']) ++ y)]
    simp

lemma data_mk (l : List Char) : (String.mk l).data = l := rfl

lemma take_drop_comma2 (W : String → List Char) (cs : List String) (w : List Char) :
    ((w ++ [',', ' ']) ++ (cs.map (fun x => W x ++ [',', ' '])).flatten).take
      (((w ++ [',', ' ']) ++ (cs.map (fun x => W x ++ [',', ' '])).flatten).length - 2)
    = w ++ (cs.map (fun x => [',', ' '] ++ W x)).flatten := by
  have h1 : cs.map (fun x => W x ++ [',', ' ']) = (cs.map W).map (fun y => y ++ [',', ' ']) := by
    simp [List.map_map, Function.comp]
  have h2 : cs.map (fun x => [',', ' '] ++ W x) = (cs.map W).map (fun y => [',', ' '] ++ y) := by
    simp [List.map_map, Function.comp]
  rw [h1, h2]
  exact take_drop_comma (cs.map W) w

lemma gdata (x : String) :
    (("\\ch\x7b" ++ x ++ "\x7d, " : String)).data
      = (("\\ch\x7b" ++ x ++ "\x7d" : String)).data ++ [',', ' '] := by
  have base : ("\x7d, " : String).data = ("\x7d" : String).data ++ [',', ' '] := by decide
  simp [String.data_append, base]

lemma commadata : ((", " : String)).data = [',', ' '] := by decide

/-- Claim C10: printChem wraps every name as a chemformula macro argument
and joins the wrapped names with a comma and a space, with no trailing
separator; on the empty list it returns the empty string because the final
two-character slice of the empty accumulator is empty. -/
theorem printChem_joins_with_comma :
    ∀ chem : List String,
      printChem chem
        = String.intercalate ", " (chem.map (fun c => "\\ch\x7b" ++ c ++ "\x7d"))
      ∧ printChem [] = "" := by
  intro chem
  refine ⟨?_, by decide⟩
  cases chem with
  | nil => decide
  | cons c cs =>
    apply String.ext
    rw [printChem, foldl_append_strConcat, String.empty_append]
    simp only [List.map_cons, String.intercalate]
    rw [intercalate_go_data, pyDropLast2, data_mk, strConcat_data]
    simp only [List.map_cons, List.map_map, List.flatten_cons, Function.comp_def, gdata, commadata]
    exact take_drop_comma2 (fun x => (("\\ch\x7b" ++ x ++ "\x7d" : String)).data) cs
      ((("\\ch\x7b" ++ c ++ "\x7d") : String).data)

/-- A concrete stoichiometric record used to instantiate hypotheses of the
general theorems at a specific input. -/
def sampleRec : StoichRec :=
  ⟨"sample", ["r1"], ["x1"], [[1]]⟩

/-- Claim C1: the notebook-defined pathway-analysis functions are pure glue
over the external library calls: for every record S, chemostat list and
flowstat list, the triple returned by Pathway is exactly the copy of S, the
statified record and the path record, as the specification words describe
(Pathway_spec); and pathway with computePhi False returns the stoich of the
bond graph, its statification, the path record and the literal 0. -/
theorem notebook_functions_are_glue :
    ∀ {BG Φ : Type} (stoich : BG → StoichRec) (statify : StatifyFun) (path : PathFun)
      (sprintrl sprintp : SprintFun) (energetics : StoichRec → StoichRec → Φ → Φ × Φ)
      (S : StoichRec) (bg : BG) (phi : Φ) (cs fs : List String) (v : Bool),
      (Pathway statify path sprintrl S cs fs v).2 = Pathway_spec statify path S cs fs
      ∧ (pathway stoich statify path sprintrl sprintp energetics bg phi cs fs false v).2
          = (stoich bg, statify (stoich bg) cs (some fs),
             path (stoich bg) (statify (stoich bg) cs (some fs)) none,
             PhiResult.num 0) := by
  intros
  exact ⟨rfl, rfl⟩

/-- Claim C4: the reduced pathway stoichiometry is always computed in the
order stoichiometry, statify, path: inside Pathway the statified record is
st.statify of the copied record, the path record is st.path of that pair,
and the rendering printed is that of the resulting sp; and in each of the
eight top-level analyses of the ModularEcoli notebook st.path is applied to
the pair of the record and its previously statified version. -/
theorem path_computed_from_statified :
    ∀ (statify : StatifyFun) (path : PathFun) (sprintrl : SprintFun)
      (S s : StoichRec) (cs fs : List String) (v : Bool),
      (Pathway statify path sprintrl S cs fs v).2.2.1 = statify S cs (some fs)
      ∧ (Pathway statify path sprintrl S cs fs v).2.2.2
          = path S ((Pathway statify path sprintrl S cs fs v).2.2.1) none
      ∧ OutLine.textLine (sprintrl ((Pathway statify path sprintrl S cs fs v).2.2.2))
          ∈ (Pathway statify path sprintrl S cs fs v).1
      ∧ (analysisGly statify path s).2.2 = path s (statify s chemostats_gly none) none
      ∧ (analysisTCA statify path s).2.2.1 = path s (statify s chemostats0_tca none) none
      ∧ (analysisTCA statify path s).2.2.2 = path s (statify s chemostats_tca none) none
      ∧ (analysisPyrTCA statify path s).2.2 = path s (statify s chemostats_pyrtca none) none
      ∧ (analysisETC statify path s).2 = path s (statify s chemostats_etc none) none
      ∧ (analysisATP statify path s).2 = path s (statify s chemostats_atp none) (some false)
      ∧ (analysisGlyTCA statify path s).2 = path s (statify s chemostats_glytca none) none
      ∧ (analysisMet statify path s).2 = path s (statify s chemostats_met none) none := by
  intro statify path sprintrl S s cs fs v
  refine ⟨rfl, rfl, ?_, rfl, rfl, rfl, rfl, rfl, rfl, rfl, rfl⟩
  simp [Pathway]

lemma pyIsStrList_map (l : List String) : pyIsStrList (Py.plist (l.map Py.pstr)) = true := by
  rw [pyIsStrList, List.all_eq_true]
  intro x hx
  rcases List.mem_map.mp hx with ⟨a, ha, rfl⟩
  rfl

/-- Claim C5: every chemostat or flowstat specification constructed by the
notebooks is a list of name strings: Chemostats, run under the dynamic
Python semantics, returns a Python list all of whose elements are strings
(and agrees with the typed embedding), and at every st.statify call site of
the repository the chemostats argument and the flowstats argument (when
given) are lists of strings. -/
theorem statify_specs_are_string_lists :
    (∀ (start : String) (e : Option (List String)),
        ChemostatsPy (Py.pstr start) (pyOfOptStrList e)
          = Except.ok (pyOfStrList (Chemostats start e))
        ∧ pyIsStrList (pyOfStrList (Chemostats start e)) = true)
    ∧ (statifyCalls.all (fun c =>
          pyIsStrList (pyOfStrList c.2.1)
          && (match c.2.2 with
              | some l => pyIsStrList (pyOfStrList l)
              | none => true))) = true := by
  constructor
  · intro start e
    constructor
    · cases e with
      | none => rfl
      | some l =>
        simp [ChemostatsPy, pyOfOptStrList, pyOfStrList, pyIter, Chemostats, List.map_append]
    · rw [pyOfStrList]
      exact pyIsStrList_map _
  · rfl

/-- Claim C6: sub-networks are recombined by unifying exactly the listed
shared species: the repository makes exactly two mbg.unify calls, one for
the GlyTCA composite with the eight-species common list and one for the
metabolism composite with the ten-species common list, after adding the
corresponding sub-models; no other unify call exists in the repository. -/
theorem unify_exactly_listed_species :
    unifyCalls
      = [("GlyTCA", ["PYR", "ATP", "ADP", "PI", "H", "NAD", "NADH", "H2O"]),
         ("Met", ["ATP", "ADP", "PI", "H", "H_E", "NAD", "NADH", "H2O", "Q8", "Q8H2"])]
    ∧ addCalls = [("GlyTCA", ["GLY", "PyrTCA"]), ("Met", ["GlyTCA", "ETC", "ATP"])]
    ∧ unifyCalls.length = 2 := by
  exact ⟨rfl, rfl, rfl⟩

/-- Claim C2, counterexample: the name PGI appears in the flowstats list
passed (through Pathway) to st.statify in the R5P and NADPH generation
analysis, and PGI is not a species of the GlyPPP record; it is one of its
reactions.  Flowstats designate reactions, not subsets of species. -/
theorem flowstat_PGI_not_a_species :
    "PGI" ∈ pppFlowstats_r5p_nadph
    ∧ ("GlyPPP", Chemostats "G6P" (some ["R5P"]), some pppFlowstats_r5p_nadph) ∈ statifyCalls
    ∧ "PGI" ∉ sGlyPPP_species
    ∧ "PGI" ∈ sGlyPPP_reaction := by
  decide

/-- Claim C2, amended: in every pathway analysis performed by the
notebooks, each name in the flowstats list passed to st.statify is a
reaction (and not a species) of the stoichiometric record being
analysed. -/
theorem flowstats_are_reactions_of_record :
    (statifyCalls.all (fun c =>
        match c.2.2 with
        | some fs => fs.all (fun f =>
            sGlyPPP_reaction.contains f && !(sGlyPPP_species.contains f))
        | none => true)) = true := by
  decide

lemma except_bind_ok {E α β : Type} (a : α) (f : α → Except E β) :
    (Except.ok a >>= f) = f a := rfl

lemma except_bind_error {E α β : Type} (e : E) (f : α → Except E β) :
    ((Except.error e : Except E α) >>= f) = Except.error e := rfl

lemma except_map_ok {E α β : Type} (f : α → β) (a : α) :
    (f <$> (Except.ok a : Except E α)) = Except.ok (f a) := rfl

lemma except_map_error {E α β : Type} (f : α → β) (e : E) :
    (f <$> (Except.error e : Except E α)) = Except.error e := rfl

/-- Claim C3: no custom error handling exists in the repository functions:
the bodies of Pathway and pathway sequence the external calls with no
try or except, so a failure of st.statify, st.path, st.sprintrl or
st.stoich is returned to the caller unchanged, and when every call
succeeds the result is the plain glue of the returned values. -/
theorem failures_propagate_unchanged :
    ∀ {E : Type} (statify : StatifyExc E) (path : PathExc E)
      (sprintrl : StoichRec → Except E String)
      {BG : Type} (stoich : BG → Except E StoichRec)
      (S : StoichRec) (bg : BG) (cs fs : List String) (e : E),
      (statify S cs (some fs) = Except.error e →
        PathwayExc statify path sprintrl S cs fs = Except.error e)
      ∧ (∀ sc, statify S cs (some fs) = Except.ok sc →
          path S sc none = Except.error e →
          PathwayExc statify path sprintrl S cs fs = Except.error e)
      ∧ (∀ sc sp rendered, statify S cs (some fs) = Except.ok sc →
          path S sc none = Except.ok sp → sprintrl sp = Except.ok rendered →
          PathwayExc statify path sprintrl S cs fs
            = Except.ok ([OutLine.chemostatsLine (pysorted cs),
                          OutLine.flowstatsLine (pysorted fs),
                          OutLine.textLine rendered], (S, sc, sp)))
      ∧ (stoich bg = Except.error e →
          pathwayExc stoich statify path sprintrl bg cs fs = Except.error e)
      ∧ (∀ s, stoich bg = Except.ok s → statify s cs (some fs) = Except.error e →
          pathwayExc stoich statify path sprintrl bg cs fs = Except.error e) := by
  intro E statify path sprintrl BG stoich S bg cs fs e
  refine ⟨?_, ?_, ?_, ?_, ?_⟩
  · intro h
    simp [PathwayExc, h, except_bind_error]
  · intro sc h1 h2
    simp [PathwayExc, h1, h2, except_bind_ok, except_bind_error]
  · intro sc sp rendered h1 h2 h3
    simp [PathwayExc, h1, h2, h3, except_bind_ok, except_map_ok]
  · intro h
    simp [pathwayExc, h, except_bind_error]
  · intro s h1 h2
    simp [pathwayExc, h1, h2, except_bind_ok, except_bind_error]

/-- Witness for claim C3 at a concrete input: a statify oracle that fails
with the message boom makes PathwayExc return exactly that failure. -/
theorem failures_propagate_unchanged_witness :
    PathwayExc (fun _ _ _ => (Except.error "boom" : Except String StoichRec))
        (fun _ _ _ => Except.ok sampleRec) (fun _ => Except.ok "out") sampleRec [] []
      = Except.error "boom" :=
  (failures_propagate_unchanged
      (fun _ _ _ => (Except.error "boom" : Except String StoichRec))
      (fun _ _ _ => Except.ok sampleRec) (fun _ => Except.ok "out")
      (fun _ : Unit => Except.ok sampleRec) sampleRec () [] [] "boom").1 rfl

/-- Claim C7: execution of the notebook-defined functions is deterministic:
with the external library calls fixed, two runs of Pathway, pathway,
Chemostats, printChem or ch on equal arguments return equal values. -/
theorem reruns_on_equal_arguments_agree :
    ∀ {BG Φ : Type} (stoich : BG → StoichRec) (statify : StatifyFun) (path : PathFun)
      (sprintrl sprintp : SprintFun) (energetics : StoichRec → StoichRec → Φ → Φ × Φ)
      (S1 S2 : StoichRec) (bg1 bg2 : BG) (phi1 phi2 : Φ)
      (cs1 cs2 fs1 fs2 : List String) (cp1 cp2 v1 v2 : Bool)
      (a1 a2 : String) (e1 e2 : Option (List String)) (l1 l2 : List String)
      (n1 n2 : String),
      S1 = S2 → cs1 = cs2 → fs1 = fs2 → v1 = v2 → bg1 = bg2 → phi1 = phi2 → cp1 = cp2 →
      a1 = a2 → e1 = e2 → l1 = l2 → n1 = n2 →
      Pathway statify path sprintrl S1 cs1 fs1 v1
          = Pathway statify path sprintrl S2 cs2 fs2 v2
      ∧ pathway stoich statify path sprintrl sprintp energetics bg1 phi1 cs1 fs1 cp1 v1
          = pathway stoich statify path sprintrl sprintp energetics bg2 phi2 cs2 fs2 cp2 v2
      ∧ Chemostats a1 e1 = Chemostats a2 e2
      ∧ printChem l1 = printChem l2
      ∧ ch n1 = ch n2 := by
  intros
  subst_vars
  exact ⟨rfl, rfl, rfl, rfl, rfl⟩

/-- Witness for claim C7 at a concrete input: rerunning each function on
the same concrete arguments gives the same value. -/
theorem reruns_on_equal_arguments_agree_witness :
    Pathway (fun s _ _ => s) (fun s _ _ => s) (fun _ => "") sampleRec ["A"] [] false
        = Pathway (fun s _ _ => s) (fun s _ _ => s) (fun _ => "") sampleRec ["A"] [] false
    ∧ pathway (fun _ : Unit => sampleRec) (fun s _ _ => s) (fun s _ _ => s)
          (fun _ => "") (fun _ => "") (fun _ _ p => ((p : Int), p)) () 0 ["A"] [] false false
        = pathway (fun _ : Unit => sampleRec) (fun s _ _ => s) (fun s _ _ => s)
          (fun _ => "") (fun _ => "") (fun _ _ p => ((p : Int), p)) () 0 ["A"] [] false false
    ∧ Chemostats "G6P" none = Chemostats "G6P" none
    ∧ printChem [] = printChem []
    ∧ ch "X" = ch "X" :=
  reruns_on_equal_arguments_agree (fun _ : Unit => sampleRec) (fun s _ _ => s) (fun s _ _ => s)
    (fun _ => "") (fun _ => "") (fun _ _ p => ((p : Int), p))
    sampleRec sampleRec () () 0 0 ["A"] ["A"] [] [] false false false false
    "G6P" "G6P" none none [] [] "X" "X"
    rfl rfl rfl rfl rfl rfl rfl rfl rfl rfl rfl

/-- Claim C8: Pathway leaves its argument unchanged by its own code: in the
heap model, the record at the address of S after the call is the one it
held before, the returned first component lives at a fresh address distinct
from S, the copy is value-equal to S (shallow copy), and it is the copy
that is passed to st.statify and st.path. -/
theorem Pathway_frame_effect :
    ∀ (statify : StatifyFun) (path : PathFun) (heap : RecHeap) (a : Nat)
      (cs fs : List String),
      a < heap.length →
      (PathwayHeap statify path heap a cs fs).2.1 ≠ a
      ∧ (PathwayHeap statify path heap a cs fs).1.getD a default = heap.getD a default
      ∧ (PathwayHeap statify path heap a cs fs).1.getD
            ((PathwayHeap statify path heap a cs fs).2.1) default
          = heap.getD a default
      ∧ (PathwayHeap statify path heap a cs fs).2.2.1
          = statify (heap.getD a default) cs (some fs)
      ∧ (PathwayHeap statify path heap a cs fs).2.2.2
          = path (heap.getD a default)
              (statify (heap.getD a default) cs (some fs)) none := by
  intro statify path heap a cs fs h
  have hlt : a ≠ heap.length := Nat.ne_of_lt h
  have hcopy : (heap ++ [heap.getD a default]).getD heap.length default
      = heap.getD a default := by
    rw [List.getD_append_right heap _ default heap.length (le_refl _)]
    simp [List.getD]
  have hold : (heap ++ [heap.getD a default]).getD a default = heap.getD a default :=
    List.getD_append heap _ default a h
  refine ⟨Ne.symm hlt, hold, hcopy, ?_, ?_⟩
  · show statify ((heap ++ [heap.getD a default]).getD heap.length default) cs (some fs)
        = statify (heap.getD a default) cs (some fs)
    rw [hcopy]
  · show path ((heap ++ [heap.getD a default]).getD heap.length default)
          (statify ((heap ++ [heap.getD a default]).getD heap.length default) cs (some fs)) none
        = path (heap.getD a default) (statify (heap.getD a default) cs (some fs)) none
    rw [hcopy]

/-- Witness for claim C8 at a concrete input: a one-record heap. -/
theorem Pathway_frame_effect_witness :
    (0 : Nat) < ([sampleRec] : RecHeap).length
    ∧ ((PathwayHeap (fun s _ _ => s) (fun s _ _ => s) [sampleRec] 0 [] []).2.1 ≠ 0
       ∧ (PathwayHeap (fun s _ _ => s) (fun s _ _ => s) [sampleRec] 0 [] []).1.getD 0 default
           = ([sampleRec] : RecHeap).getD 0 default
       ∧ (PathwayHeap (fun s _ _ => s) (fun s _ _ => s) [sampleRec] 0 [] []).1.getD
             ((PathwayHeap (fun s _ _ => s) (fun s _ _ => s) [sampleRec] 0 [] []).2.1) default
           = ([sampleRec] : RecHeap).getD 0 default
       ∧ (PathwayHeap (fun s _ _ => s) (fun s _ _ => s) [sampleRec] 0 [] []).2.2.1
           = (fun (s : StoichRec) (_ : List String) (_ : Option (List String)) => s)
               (([sampleRec] : RecHeap).getD 0 default) [] (some [])
       ∧ (PathwayHeap (fun s _ _ => s) (fun s _ _ => s) [sampleRec] 0 [] []).2.2.2
           = (fun (s : StoichRec) (_ : StoichRec) (_ : Option Bool) => s)
               (([sampleRec] : RecHeap).getD 0 default)
               ((fun (s : StoichRec) (_ : List String) (_ : Option (List String)) => s)
                 (([sampleRec] : RecHeap).getD 0 default) [] (some [])) none) :=
  ⟨by decide,
   Pathway_frame_effect (fun s _ _ => s) (fun s _ _ => s) [sampleRec] 0 [] [] (by decide)⟩

/-- Claim C9: Chemostats returns the seven fixed base species followed by
the start name, followed by the entries of the end list when it is given;
every returned list contains the seven base species, the result has length
eight when the end argument is None, and the default start is G6P. -/
theorem Chemostats_base_start_end :
    ∀ (start : String) (e : Option (List String)),
      Chemostats start e
        = ["ADP", "ATP", "CO2", "H", "H2O", "NADP", "NADPH"] ++ [start] ++ e.getD []
      ∧ (∀ b ∈ (["ADP", "ATP", "CO2", "H", "H2O", "NADP", "NADPH"] : List String),
          b ∈ Chemostats start e)
      ∧ (e = none → (Chemostats start e).length = 8)
      ∧ Chemostats Chemostats_default_start none
          = ["ADP", "ATP", "CO2", "H", "H2O", "NADP", "NADPH", "G6P"] := by
  intro start e
  refine ⟨?_, ?_, ?_, rfl⟩
  · cases e with
    | none => simp [Chemostats]
    | some l => rfl
  · intro b hb
    cases e with
    | none => exact List.mem_append_left _ hb
    | some l => exact List.mem_append_left _ (List.mem_append_left _ hb)
  · intro he
    subst he
    rfl

/-- Witness for claim C9 at a concrete input: start G6P with end None and
with end a one-element list. -/
theorem Chemostats_base_start_end_witness :
    Chemostats "G6P" (some ["R5P"])
        = ["ADP", "ATP", "CO2", "H", "H2O", "NADP", "NADPH"] ++ ["G6P"]
            ++ (some ["R5P"]).getD []
    ∧ "ADP" ∈ Chemostats "G6P" (some ["R5P"])
    ∧ (Chemostats "G6P" none).length = 8 :=
  ⟨(Chemostats_base_start_end "G6P" (some ["R5P"])).1,
   (Chemostats_base_start_end "G6P" (some ["R5P"])).2.1 "ADP" (by decide),
   (Chemostats_base_start_end "G6P" none).2.2.1 rfl⟩

end GawPanCra21
